import Mathlib

/-!
Verification development for the code inspection and sandboxed execution
engine of the repository (file `inspector.py`).

The development shallowly embeds the core:

* `AdvancedErrorHandler.ERROR_TYPES` / `classify_error` — the fault taxonomy
  and the total classification function.  `classify_error` receives an
  arbitrary Python object; we model such an object by the pair of its
  type name (`type(error).__name__`) and its string form (`str(error)`).
* `CodeInspector.static_analysis` / `_calculate_complexity` — the AST walk.
  Python AST trees are modelled by `PyNode`: a node kind plus the list of
  child nodes (for a `BoolOp` node the children are its `values`).
  `ast.parse` belongs to the host language, not to the repository, so
  `static_analysis` is parametrised by a parse function of the documented
  shape (a tree on success, a syntax error with message/line/offset on
  failure).
* `CodeInspector.runtime_execution` — `exec(code, {}, local_vars)` under
  stream redirection.  The observable behaviour of executing a source
  string (text written to stdout/stderr, elapsed wall time, and how the
  execution ended) is an `ExecBehavior`; `runtime_execution` maps that
  behaviour to the result dictionary built by the source.  A raised fault
  carries an `isExc` flag telling whether it derives from `Exception`
  (the source catches `except Exception`, so a `BaseException` such as
  `SystemExit` propagates, which the embedding renders as `Except.error`).
  Behaviours used in concrete theorems are derived, where possible, from a
  small executable semantics of a Python fragment (`Stmt`/`Expr` below)
  that follows the scoping rules of `exec` with a separate empty globals
  dictionary.
* `CodeInspector.analyze_and_suggest_fix` and
  `CodeInspector.comprehensive_inspection` — translated clause by clause;
  in particular the orchestrator rebuilds the runtime fault as
  `type(error_info['type'])(error_info['message'])`, and since
  `error_info['type']` is a string, `type(...)` is `str` and the rebuilt
  object is the plain message string: the embedding passes the object
  representation `⟨"str", message⟩` to `classify_error` at that point.
-/

/-! ### Error taxonomy and classification (`AdvancedErrorHandler`) -/

/-- One entry of the `ERROR_TYPES` taxonomy table. -/
structure TaxEntry where
  category : String
  severity : String
  general_advice : String
deriving DecidableEq, Repr

/-- The `ERROR_TYPES` table of `AdvancedErrorHandler`, keyed by the
exception type name. -/
def ERROR_TYPES : List (String × TaxEntry) :=
  [ ("SyntaxError",
      ⟨"Syntax", "critical",
        "Check code syntax, indentation, and language-specific constructs."⟩),
    ("IndentationError",
      ⟨"Syntax", "critical",
        "Ensure consistent indentation. Use spaces or tabs consistently."⟩),
    ("TypeError",
      ⟨"Type Mismatch", "high",
        "Verify type compatibility and type conversions."⟩),
    ("ValueError",
      ⟨"Value Error", "high",
        "Check input values and their constraints."⟩),
    ("NameError",
      ⟨"Reference", "high",
        "Ensure all variables are defined before use."⟩),
    ("AttributeError",
      ⟨"Attribute", "medium",
        "Verify object attributes and method calls."⟩),
    ("IndexError",
      ⟨"Indexing", "high",
        "Check array/list indexing and bounds."⟩),
    ("KeyError",
      ⟨"Dictionary", "high",
        "Verify dictionary key existence before access."⟩),
    ("ZeroDivisionError",
      ⟨"Arithmetic", "high",
        "Add checks to prevent division by zero."⟩),
    ("FileNotFoundError",
      ⟨"File System", "high",
        "Verify file paths and permissions."⟩),
    ("MemoryError",
      ⟨"Resource", "critical",
        "Optimize memory usage, handle large data more efficiently."⟩) ]

/-- `ERROR_TYPES.get(error_type, fallback)`: dictionary lookup by key. -/
def lookupErrorType (k : String) : Option TaxEntry :=
  (ERROR_TYPES.find? (fun p => p.1 == k)).map (fun p => p.2)

/-- A Python object as `classify_error` observes it: its type name
(`type(error).__name__`) and its string form (`str(error)`). -/
structure PyObjRepr where
  typeName : String
  strRepr : String
deriving DecidableEq, Repr

/-- The dictionary returned by `classify_error` (the `traceback` entry,
which no claim touches, is omitted). -/
structure ErrorClassification where
  etype : String
  message : String
  category : String
  severity : String
  general_advice : String
deriving DecidableEq, Repr

/-- `AdvancedErrorHandler.classify_error`: look the type name up in
`ERROR_TYPES` and fall back to the Unknown/low entry. -/
def classify_error (err : PyObjRepr) : ErrorClassification :=
  let info := (lookupErrorType err.typeName).getD
    ⟨"Unknown", "low", "Unexpected error occurred."⟩
  { etype := err.typeName
    message := err.strRepr
    category := info.category
    severity := info.severity
    general_advice := info.general_advice }

/-! ### AST model and static analysis (`CodeInspector.static_analysis`) -/

/-- The AST node kinds `static_analysis` and `_calculate_complexity`
distinguish; every other node is `otherK`. -/
inductive NodeKind where
  | module
  | ifK
  | whileK
  | forK
  | tryK
  | exceptHandlerK
  | asyncForK
  | asyncWithK
  | withK
  | matchK
  | matchCaseK
  | boolOpK
  | functionDefK
  | classDefK
  | importK
  | importFromK
  | otherK
deriving DecidableEq, Repr

/-- A Python AST tree: a node kind and the list of child nodes.  For a
`BoolOp` node the children are its `values` list. -/
inductive PyNode where
  | node (kind : NodeKind) (children : List PyNode)
deriving Repr

/-- The kinds the complexity loop increments by 1 for
(`ast.If, ast.While, ast.For, ast.Try, ast.ExceptHandler, ast.AsyncFor,
ast.AsyncWith, ast.Match`). -/
def branchIncrement : NodeKind → Bool
  | .ifK => true
  | .whileK => true
  | .forK => true
  | .tryK => true
  | .exceptHandlerK => true
  | .asyncForK => true
  | .asyncWithK => true
  | .matchK => true
  | _ => false

mutual

/-- Total complexity contribution of one node and its subtree, as summed
by the `ast.walk` loop of `_calculate_complexity`. -/
def complexityAux : PyNode → Int
  | .node k cs =>
      (if branchIncrement k then 1 else 0)
      + (if k = NodeKind.boolOpK then (cs.length : Int) - 1 else 0)
      + complexityList cs

/-- Sum of `complexityAux` over a list of nodes. -/
def complexityList : List PyNode → Int
  | [] => 0
  | c :: cs => complexityAux c + complexityList cs

end

/-- `CodeInspector._calculate_complexity`: base complexity 1 plus the
contributions of every node reached by `ast.walk`. -/
def calculate_complexity (t : PyNode) : Int :=
  1 + complexityAux t

mutual

/-- Number of nodes of kind `k` in the tree (one `isinstance` count of the
`ast.walk` comprehensions). -/
def countK (k : NodeKind) : PyNode → Nat
  | .node k' cs => (if k' = k then 1 else 0) + countKList k cs

/-- Sum of `countK` over a list of nodes. -/
def countKList (k : NodeKind) : List PyNode → Nat
  | [] => 0
  | c :: cs => countK k c + countKList k cs

end

mutual

/-- Sum of `len(values) - 1` over every `BoolOp` node of the tree. -/
def boolOpExtra : PyNode → Int
  | .node k cs =>
      (if k = NodeKind.boolOpK then (cs.length : Int) - 1 else 0)
      + boolOpExtraList cs

/-- Sum of `boolOpExtra` over a list of nodes. -/
def boolOpExtraList : List PyNode → Int
  | [] => 0
  | c :: cs => boolOpExtra c + boolOpExtraList cs

end

/-- A syntax error as `ast.parse` reports it (`str(e)`, `e.lineno`,
`e.offset`). -/
structure SyntaxErr where
  message : String
  line : Nat
  offset : Nat
deriving DecidableEq, Repr

/-- The dictionary returned by `static_analysis`: the `syntax_valid: True`
shape with the four counts, or the `syntax_valid: False` shape with the
`syntax_error` details. -/
inductive StaticReport where
  | valid (function_count class_count import_count : Nat)
      (complexity_score : Int)
  | invalid (message : String) (line offset : Nat)
deriving DecidableEq, Repr

/-- `CodeInspector.static_analysis`, parametrised by the parse function
standing for `ast.parse` (success yields a tree, failure a `SyntaxError`
with message, line and offset; the source catches exactly that failure). -/
def static_analysis (parse : String → Except SyntaxErr PyNode)
    (code : String) : StaticReport :=
  match parse code with
  | .ok tree =>
      .valid
        (countK NodeKind.functionDefK tree)
        (countK NodeKind.classDefK tree)
        (countK NodeKind.importK tree + countK NodeKind.importFromK tree)
        (calculate_complexity tree)
  | .error e => .invalid e.message e.line e.offset

/-! ### A Python fragment and its `exec` semantics

`runtime_execution` runs `exec(code, {}, local_vars)`.  To ground concrete
execution behaviours we give an executable semantics for a small fragment
of Python: integer and string literals, names, `+`/`-`/`*`, conditional
expressions, single-parameter function definitions and calls, assignments,
`print`, and `raise`.  Name resolution follows the language rules for the
two-namespace `exec` form: at the top level a name is looked up in the
locals mapping then in the globals mapping; inside a function body it is
looked up in the call frame then in the globals mapping — the top-level
locals are *not* visible there.  Running the same program "as an ordinary
module" corresponds to globals and locals being one dictionary, which the
semantics models by binding top-level names into both environments. -/

/-- A raised Python exception: type name, message, and whether its type
derives from `Exception` (so `except Exception` catches it). -/
structure PyExc where
  kind : String
  msg : String
  isExc : Bool
deriving DecidableEq, Repr

/-- `NameError: name 'x' is not defined` (message modelled without the
quote characters). -/
def nameError (x : String) : PyExc :=
  ⟨"NameError", "name " ++ x ++ " is not defined", true⟩

/-- The fault raised when the fuel of the evaluator runs out; it models
the interpreter recursion limit. -/
def recursionLimit : PyExc :=
  ⟨"RecursionError", "maximum recursion depth exceeded", true⟩

/-- Binary operators of the fragment. -/
inductive BinOp where
  | add
  | sub
  | mul
deriving DecidableEq, Repr

/-- Expressions of the fragment.  `ite0 c t e` is the conditional
expression `t if c else e`. -/
inductive Expr where
  | lit (n : Int)
  | strE (s : String)
  | name (x : String)
  | bin (op : BinOp) (a b : Expr)
  | call (f : String) (arg : Expr)
  | ite0 (c t e : Expr)
deriving DecidableEq, Repr

/-- Statements of the fragment.  `defStmt f p b` is
`def f(p): return b`; `raiseStmt` raises an exception of the given type
name (with `isExc` telling whether that type derives from `Exception`). -/
inductive Stmt where
  | assign (x : String) (e : Expr)
  | defStmt (f : String) (param : String) (body : Expr)
  | exprStmt (e : Expr)
  | printStmt (e : Expr)
  | raiseStmt (kind msg : String) (isExc : Bool)
deriving DecidableEq, Repr

/-- Runtime values: integers, strings, and closures.  A closure records
its parameter and body only: per the `exec` rules its free names resolve
against the globals dictionary current at call time. -/
inductive Val where
  | int (n : Int)
  | str (s : String)
  | closure (param : String) (body : Expr)
deriving DecidableEq, Repr

/-- A name environment (association list standing for a namespace
dictionary; the most recent binding wins). -/
abbrev Env := List (String × Val)

/-- Dictionary lookup. -/
def lookupEnv (env : Env) (x : String) : Option Val :=
  (env.find? (fun p => p.1 == x)).map (fun p => p.2)

/-- Name resolution: current locals first, then the globals dictionary,
else `NameError` (the fragment uses no builtin names). -/
def lookupName (g l : Env) (x : String) : Except PyExc Val :=
  match lookupEnv l x with
  | some v => .ok v
  | none =>
      match lookupEnv g x with
      | some v => .ok v
      | none => .error (nameError x)

/-- Python truthiness for the fragment's values. -/
def truthy : Val → Bool
  | .int n => n != 0
  | .str s => s != ""
  | .closure _ _ => true

/-- Semantics of the binary operators, with the `TypeError`s Python
raises on ill-typed operands. -/
def applyBin : BinOp → Val → Val → Except PyExc Val
  | .add, .int a, .int b => .ok (.int (a + b))
  | .add, .str a, .str b => .ok (.str (a ++ b))
  | .add, .int _, .str _ =>
      .error ⟨"TypeError", "unsupported operand types for +: int and str", true⟩
  | .add, .str _, .int _ =>
      .error ⟨"TypeError", "can only concatenate str to str", true⟩
  | .sub, .int a, .int b => .ok (.int (a - b))
  | .mul, .int a, .int b => .ok (.int (a * b))
  | _, _, _ =>
      .error ⟨"TypeError", "unsupported operand types", true⟩

/-- Expression evaluation.  `g` is the globals dictionary, `l` the local
namespace of the current scope (the top-level locals, or a call frame).
Fuel decreases at every step and models the recursion limit. -/
def evalExpr (g : Env) : Nat → Env → Expr → Except PyExc Val
  | 0, _, _ => .error recursionLimit
  | _ + 1, _, .lit n => .ok (.int n)
  | _ + 1, _, .strE s => .ok (.str s)
  | _ + 1, l, .name x => lookupName g l x
  | fuel + 1, l, .bin op a b => do
      let va ← evalExpr g fuel l a
      let vb ← evalExpr g fuel l b
      applyBin op va vb
  | fuel + 1, l, .ite0 c t e => do
      let vc ← evalExpr g fuel l c
      if truthy vc then evalExpr g fuel l t else evalExpr g fuel l e
  | fuel + 1, l, .call f arg => do
      let fv ← lookupName g l f
      let av ← evalExpr g fuel l arg
      match fv with
      | .closure p body => evalExpr g fuel [(p, av)] body
      | _ => .error ⟨"TypeError", "object is not callable", true⟩

/-- The string `print` writes for a value (followed by a newline). -/
def valStr : Val → String
  | .int n => toString n
  | .str s => s
  | .closure _ _ => "<function>"

/-- Interpreter state: the globals dictionary, the top-level locals, and
the text written to standard output so far. -/
structure RunSt where
  g : Env
  l : Env
  out : String
deriving DecidableEq, Repr

/-- The empty starting state (both dictionaries empty, nothing printed). -/
def initSt : RunSt := ⟨[], [], ""⟩

/-- Bind a top-level name.  Under `exec(code, {}, local_vars)`
(`sandbox = true`) the binding goes into the locals dictionary only, so
the globals dictionary stays empty; when globals and locals are the same
dictionary (`sandbox = false`, ordinary module execution) it goes into
both. -/
def bindName (sandbox : Bool) (st : RunSt) (x : String) (v : Val) : RunSt :=
  if sandbox then { st with l := (x, v) :: st.l }
  else { st with g := (x, v) :: st.g, l := (x, v) :: st.l }

/-- Execute one top-level statement; a returned exception aborts the
program. -/
def execStmt (sandbox : Bool) (fuel : Nat) (st : RunSt) :
    Stmt → RunSt × Option PyExc
  | .assign x e =>
      match evalExpr st.g fuel st.l e with
      | .ok v => (bindName sandbox st x v, none)
      | .error ex => (st, some ex)
  | .defStmt f p b => (bindName sandbox st f (Val.closure p b), none)
  | .exprStmt e =>
      match evalExpr st.g fuel st.l e with
      | .ok _ => (st, none)
      | .error ex => (st, some ex)
  | .printStmt e =>
      match evalExpr st.g fuel st.l e with
      | .ok v => ({ st with out := st.out ++ valStr v ++ "\n" }, none)
      | .error ex => (st, some ex)
  | .raiseStmt k m b => (st, some ⟨k, m, b⟩)

/-- Execute a program: fold `execStmt` until done or an exception is
raised. -/
def execProg (sandbox : Bool) (fuel : Nat) :
    RunSt → List Stmt → RunSt × Option PyExc
  | st, [] => (st, none)
  | st, s :: ss =>
      match execStmt sandbox fuel st s with
      | (st', none) => execProg sandbox fuel st' ss
      | (st', some ex) => (st', some ex)

/-- Run a program the way `runtime_execution` does:
`exec(code, {}, local_vars)` with an empty globals dictionary. -/
def sandboxRun (prog : List Stmt) (fuel : Nat) : RunSt × Option PyExc :=
  execProg true fuel initSt prog

/-- Run a program as an ordinary module: globals and locals are the same
dictionary. -/
def moduleRun (prog : List Stmt) (fuel : Nat) : RunSt × Option PyExc :=
  execProg false fuel initSt prog

/-! ### The execution sandbox (`CodeInspector.runtime_execution`) -/

/-- How an execution ended: normal completion, or a raised exception. -/
inductive ExecEnd where
  | normal
  | raised (e : PyExc)
deriving DecidableEq, Repr

/-- The observable behaviour of `exec`-uting one source string under the
stream redirection `runtime_execution` installs: the text the code wrote
to each stream, the elapsed wall-clock time, and how execution ended. -/
structure ExecBehavior where
  stdout : String
  stderr : String
  duration : Nat
  outcome : ExecEnd
deriving DecidableEq, Repr

/-- The behaviour of a fragment program under the sandbox scoping
(`duration` is wall-clock time, which the semantics does not model, so it
is a parameter). -/
def behaviorOf (prog : List Stmt) (fuel dur : Nat) : ExecBehavior :=
  match sandboxRun prog fuel with
  | (st, none) => ⟨st.out, "", dur, .normal⟩
  | (st, some ex) => ⟨st.out, "", dur, .raised ex⟩

/-- The `error` entry of the execution-result dictionary (the `traceback`
entry, which no claim touches, is omitted). -/
structure RawFaultInfo where
  etype : String
  message : String
deriving DecidableEq, Repr

/-- The dictionary `runtime_execution` returns: keys `success`, `output`,
`runtime`, `error`, initialised to `False/None/None/None` and updated on
the path taken. -/
structure ExecResult where
  success : Bool
  output : Option String
  runtime : Option Nat
  error : Option RawFaultInfo
deriving DecidableEq, Repr

/-- `CodeInspector.runtime_execution`.  On normal completion it stores
`success=True`, the captured stdout and the elapsed time; on a raised
`Exception` it stores the fault and the elapsed time, leaving `output`
at `None`; a raised fault that does not derive from `Exception` escapes
the `except Exception` handler and propagates (`Except.error`).  The
`timeout` parameter is accepted but — exactly as in the source — never
read. -/
def runtime_execution (beh : ExecBehavior) (timeout : Nat) :
    Except PyExc ExecResult :=
  match beh.outcome with
  | .normal =>
      .ok { success := true
            output := some beh.stdout
            runtime := some beh.duration
            error := none }
  | .raised e =>
      if e.isExc then
        .ok { success := false
              output := none
              runtime := some beh.duration
              error := some ⟨e.kind, e.msg⟩ }
      else .error e

/-! ### Fix suggestions and the orchestrator -/

/-- One suggestion dictionary of `analyze_and_suggest_fix`; the field
`example_text` stands for the dictionary key `example`. -/
structure FixSuggestion where
  fix : String
  example_text : String
  code_hint : String
deriving DecidableEq, Repr

/-- `CodeInspector.analyze_and_suggest_fix`: dispatch on
`error_info['type']`; the `code` argument is accepted and, as in the
source, never used. -/
def analyze_and_suggest_fix (code : String)
    (errorInfo : ErrorClassification) : List FixSuggestion :=
  let et := errorInfo.etype
  let suggestions : List FixSuggestion :=
    if et == "TypeError" then
      [⟨"Add type conversion or type checking",
        "Ensure consistent types or use explicit type conversion",
        "if not isinstance(value, expected_type): value = type_conversion(value)"⟩]
    else if et == "ValueError" then
      [⟨"Validate input values",
        "Add input validation before processing",
        "if not validate_condition(value): raise ValueError(\"Invalid input\")"⟩]
    else if et == "IndexError" then
      [⟨"Add bounds checking",
        "Check list length before indexing",
        "if index < len(my_list): value = my_list[index]"⟩]
    else if et == "KeyError" then
      [⟨"Use .get() method or check key existence",
        "my_dict.get(key, default_value)",
        "value = my_dict.get(key, default_value)"⟩]
    else if et == "ZeroDivisionError" then
      [⟨"Add zero division check",
        "if denominator != 0: result = numerator / denominator",
        "if denominator != 0: result = numerator / denominator else: handle_zero_division()"⟩]
    else []
  if suggestions.isEmpty then
    [⟨"Review and debug code",
      "Carefully examine the code context and error message",
      "# Requires manual inspection"⟩]
  else suggestions

/-- The `runtime_analysis` section of the report: the execution-result
dictionary, possibly extended with the `error_details` entry. -/
structure RuntimeSection where
  result : ExecResult
  error_details : Option (ErrorClassification × List FixSuggestion)
deriving DecidableEq, Repr

/-- The report of `comprehensive_inspection`: exactly the two top-level
sections. -/
structure InspectionReport where
  static_analysis : StaticReport
  runtime_analysis : RuntimeSection
deriving DecidableEq, Repr

/-- `CodeInspector.comprehensive_inspection`.  The static phase cannot
raise (in the source its surrounding handler is unreachable because
`static_analysis` catches the only fault `ast.parse` reports).  The
runtime phase catches `Exception` only, so a propagating fault of
`runtime_execution` that does not derive from `Exception` also escapes
the orchestrator's own handler (`Except.error`).  When the execution
result has `success=False` (the `'error' in runtime_result` conjunct is
always true: the key is initialised), the orchestrator rebuilds the fault
as `type(error_info['type'])(error_info['message'])`; `error_info['type']`
is a string, so the rebuilt object is `str(error_info['message'])` — a
plain string whose type name is `str` — and that object is what
`classify_error` receives.  The `rr.error = none` branch is unreachable
for results produced by `runtime_execution`. -/
def comprehensive_inspection (parse : String → Except SyntaxErr PyNode)
    (beh : ExecBehavior) (code : String) :
    Except PyExc InspectionReport :=
  let sa := static_analysis parse code
  match runtime_execution beh 5 with
  | .error e => .error e
  | .ok rr =>
      if rr.success then
        .ok ⟨sa, ⟨rr, none⟩⟩
      else
        match rr.error with
        | some fi =>
            let reconstructed : PyObjRepr := ⟨"str", fi.message⟩
            let cls := classify_error reconstructed
            let fixes := analyze_and_suggest_fix code cls
            .ok ⟨sa, ⟨rr, some (cls, fixes)⟩⟩
        | none => .ok ⟨sa, ⟨rr, none⟩⟩

/-! ### Concrete oracles and programs used by the claim theorems -/

/-- A stand-in parse oracle for sources whose static section is not the
point of a theorem: every string parses to a one-statement module. -/
def parseTriv : String → Except SyntaxErr PyNode :=
  fun _ => .ok (PyNode.node NodeKind.module [PyNode.node NodeKind.otherK []])

/-- A parse oracle reporting the syntax fault of
`def broken_function()` (missing colon), as `ast.parse` pinpoints it. -/
def parseFail : String → Except SyntaxErr PyNode :=
  fun _ => .error ⟨"expected colon", 1, 21⟩

/-- Behaviour of a source that completes normally printing nothing. -/
def behNormal : ExecBehavior := ⟨"", "", 1, ExecEnd.normal⟩

/-- Behaviour of a source whose execution raises a `TypeError` (an
`Exception`-derived fault). -/
def behRaisedTE : ExecBehavior :=
  ⟨"", "", 2, ExecEnd.raised ⟨"TypeError", "boom", true⟩⟩

/-- Behaviour of a source that writes to both streams and then raises a
`TypeError` — e.g. printing a greeting, writing a warning to stderr and
then evaluating a mismatched addition. -/
def behC6 : ExecBehavior :=
  ⟨"hello\n", "warning", 3, ExecEnd.raised ⟨"TypeError", "boom", true⟩⟩

/-- The expected execution-result dictionary for `behC6`. -/
def rC6 : ExecResult := ⟨false, none, some 3, some ⟨"TypeError", "boom"⟩⟩

/-- The fragment program `raise SystemExit` (whose exception type derives
from `BaseException` but not from `Exception`). -/
def sysExitProg : List Stmt := [Stmt.raiseStmt "SystemExit" "" false]

/-- Behaviour of `raise SystemExit`, derived from the fragment
semantics. -/
def behSysExit : ExecBehavior := behaviorOf sysExitProg 10 1

/-- The fragment program of spec Scenario A: `x = 1 + '5'`. -/
def scenarioAProg : List Stmt :=
  [Stmt.assign "x" (Expr.bin BinOp.add (Expr.lit 1) (Expr.strE "5"))]

/-- The Scenario A source text. -/
def scenarioACode : String := "x = 1 + \x275\x27"

/-- Behaviour of Scenario A, derived from the fragment semantics. -/
def scenarioABeh : ExecBehavior := behaviorOf scenarioAProg 10 2

/-- A source whose second definition calls the first by its top-level
name: `def g(n): return n + 1` then `def f(n): return g(n)` then
`f(arg)`. -/
def progCall (arg : Int) : List Stmt :=
  [ Stmt.defStmt "g" "n" (Expr.bin BinOp.add (Expr.name "n") (Expr.lit 1)),
    Stmt.defStmt "f" "n" (Expr.call "g" (Expr.name "n")),
    Stmt.exprStmt (Expr.call "f" (Expr.lit arg)) ]

/-- A recursive source: `def fact(n): return n * fact(n - 1) if n else 1`
then `r = fact(5)`. -/
def progRec : List Stmt :=
  [ Stmt.defStmt "fact" "n"
      (Expr.ite0 (Expr.name "n")
        (Expr.bin BinOp.mul (Expr.name "n")
          (Expr.call "fact" (Expr.bin BinOp.sub (Expr.name "n") (Expr.lit 1))))
        (Expr.lit 1)),
    Stmt.assign "r" (Expr.call "fact" (Expr.lit 5)) ]

/-! ### Helper lemmas -/

/-- One sandbox step never writes into the globals dictionary. -/
theorem execStmt_sandbox_globals (fuel : Nat) (st : RunSt) (s : Stmt) :
    (execStmt true fuel st s).1.g = st.g := by
  cases s <;> simp only [execStmt, bindName, if_pos] <;>
    first
      | rfl
      | (split <;> rfl)

/-- Sandbox execution never writes into the globals dictionary. -/
theorem execProg_sandbox_globals :
    ∀ (prog : List Stmt) (fuel : Nat) (st : RunSt),
      (execProg true fuel st prog).1.g = st.g
  | [], _, _ => rfl
  | s :: ss, fuel, st => by
      unfold execProg
      have h1 := execStmt_sandbox_globals fuel st s
      cases h : execStmt true fuel st s with
      | mk st' ox =>
          rw [h] at h1
          cases ox with
          | none =>
              simpa [execProg_sandbox_globals ss fuel st'] using h1
          | some ex => simpa using h1

/-- `complexityList` distributes over append. -/
theorem complexityList_append :
    ∀ xs ys : List PyNode,
      complexityList (xs ++ ys) = complexityList xs + complexityList ys
  | [], ys => by simp [complexityList]
  | x :: xs, ys => by
      simp [complexityList, complexityList_append xs ys]
      ring

mutual

/-- Decomposition of the complexity walk: the contribution of a tree is
the number of its `If`/`While`/`For`/`Try`/`ExceptHandler`/`AsyncFor`/
`AsyncWith`/`Match` nodes plus the boolean-operation extras. -/
theorem complexityAux_eq_counts :
    ∀ t : PyNode,
      complexityAux t =
        ((countK NodeKind.ifK t + countK NodeKind.whileK t
          + countK NodeKind.forK t + countK NodeKind.tryK t
          + countK NodeKind.exceptHandlerK t + countK NodeKind.asyncForK t
          + countK NodeKind.asyncWithK t + countK NodeKind.matchK t : Nat) : Int)
        + boolOpExtra t
  | .node k cs => by
      have hrec := complexityList_eq_counts cs
      cases k <;>
        simp [complexityAux, countK, boolOpExtra, branchIncrement, hrec] <;>
        ring

/-- List version of `complexityAux_eq_counts`. -/
theorem complexityList_eq_counts :
    ∀ ts : List PyNode,
      complexityList ts =
        ((countKList NodeKind.ifK ts + countKList NodeKind.whileK ts
          + countKList NodeKind.forK ts + countKList NodeKind.tryK ts
          + countKList NodeKind.exceptHandlerK ts
          + countKList NodeKind.asyncForK ts
          + countKList NodeKind.asyncWithK ts
          + countKList NodeKind.matchK ts : Nat) : Int)
        + boolOpExtraList ts
  | [] => by simp [complexityList, countKList, boolOpExtraList]
  | c :: cs => by
      have h1 := complexityAux_eq_counts c
      have h2 := complexityList_eq_counts cs
      simp [complexityList, countKList, boolOpExtraList, h1, h2]
      ring

end

/-- The kinds the SPEC's wording increments by 1 for: "each conditional,
loop, exception-handling clause, or pattern-match arm" — read as `If`,
the loops (`While`/`For`/`AsyncFor`), each `except` clause, and each
`match_case` arm.  This definition follows the spec's words, not the
source, and exists only to be compared with `calculate_complexity`. -/
def specIncrement : NodeKind → Bool
  | .ifK => true
  | .whileK => true
  | .forK => true
  | .asyncForK => true
  | .exceptHandlerK => true
  | .matchCaseK => true
  | _ => false

mutual

/-- Per-subtree sum for `spec_complexity` (spec wording, not source). -/
def specComplexityAux : PyNode → Int
  | .node k cs =>
      (if specIncrement k then 1 else 0)
      + (if k = NodeKind.boolOpK then (cs.length : Int) - 1 else 0)
      + specComplexityList cs

/-- Sum of `specComplexityAux` over a list of nodes. -/
def specComplexityList : List PyNode → Int
  | [] => 0
  | c :: cs => specComplexityAux c + specComplexityList cs

end

/-- Cyclomatic complexity as the spec's sentence describes it (baseline 1
plus `specIncrement` nodes plus boolean-operation extras). -/
def spec_complexity (t : PyNode) : Int :=
  1 + specComplexityAux t

/-- A `match` statement with two arms. -/
def tMatch : PyNode :=
  PyNode.node NodeKind.module
    [PyNode.node NodeKind.matchK
      [PyNode.node NodeKind.otherK [],
       PyNode.node NodeKind.matchCaseK [],
       PyNode.node NodeKind.matchCaseK []]]

/-- An `async with` block containing no further statements of interest. -/
def tAsyncWith : PyNode :=
  PyNode.node NodeKind.module [PyNode.node NodeKind.asyncWithK []]

/-- A `try` statement with one `except` clause. -/
def tTry : PyNode :=
  PyNode.node NodeKind.module
    [PyNode.node NodeKind.tryK
      [PyNode.node NodeKind.otherK [],
       PyNode.node NodeKind.exceptHandlerK []]]

mutual

/-- A tree is straight-line when it contains no node the complexity loop
charges for: no conditional, loop, try/except, async-for/with or match
construct and no short-circuiting boolean operation. -/
def noBranch : PyNode → Bool
  | .node k cs =>
      !branchIncrement k && !(k == NodeKind.boolOpK)
        && !(k == NodeKind.matchCaseK) && noBranchList cs

/-- `noBranch` over a list of nodes. -/
def noBranchList : List PyNode → Bool
  | [] => true
  | c :: cs => noBranch c && noBranchList cs

end

mutual

/-- Well-formedness of a tree as `ast.parse` produces it: every `BoolOp`
node has at least two operands. -/
def wfTree : PyNode → Bool
  | .node k cs =>
      (!(k == NodeKind.boolOpK) || decide (2 ≤ cs.length)) && wfList cs

/-- `wfTree` over a list of nodes. -/
def wfList : List PyNode → Bool
  | [] => true
  | c :: cs => wfTree c && wfList cs

end

/-- The added construct of the monotonicity claim: a conditional, loop,
or exception construct. -/
def isBranchStmt : PyNode → Bool
  | .node k _ =>
      k == NodeKind.ifK || k == NodeKind.whileK || k == NodeKind.forK
        || k == NodeKind.tryK

mutual

/-- A straight-line tree contributes nothing to the complexity sum. -/
theorem noBranch_complexityAux :
    ∀ t : PyNode, noBranch t = true → complexityAux t = 0
  | .node k cs => by
      intro h
      simp only [noBranch, Bool.and_eq_true, Bool.not_eq_true'] at h
      obtain ⟨⟨⟨hb, hbo⟩, _⟩, hcs⟩ := h
      have hbo' : k ≠ NodeKind.boolOpK := by
        intro hk; rw [hk] at hbo; simp at hbo
      simp [complexityAux, hb, hbo', noBranchList_complexity cs hcs]

/-- List version of `noBranch_complexityAux`. -/
theorem noBranchList_complexity :
    ∀ ts : List PyNode, noBranchList ts = true → complexityList ts = 0
  | [] => by intro _; rfl
  | c :: cs => by
      intro h
      simp only [noBranchList, Bool.and_eq_true] at h
      simp [complexityList, noBranch_complexityAux c h.1,
        noBranchList_complexity cs h.2]

end

mutual

/-- On well-formed trees the complexity contribution is non-negative. -/
theorem wfTree_complexity_nonneg :
    ∀ t : PyNode, wfTree t = true → 0 ≤ complexityAux t
  | .node k cs => by
      intro h
      simp only [wfTree, Bool.and_eq_true, Bool.or_eq_true,
        Bool.not_eq_true', beq_eq_false_iff_ne, ne_eq,
        decide_eq_true_eq] at h
      obtain ⟨hk, hcs⟩ := h
      have hlist := wfList_complexity_nonneg cs hcs
      have hbranch : (0 : Int) ≤ if branchIncrement k then 1 else 0 := by
        split <;> omega
      have hbool : (0 : Int) ≤
          if k = NodeKind.boolOpK then (cs.length : Int) - 1 else 0 := by
        split
        · rename_i hkk
          rcases hk with hne | hlen
          · exact absurd hkk hne
          · have : (2 : Int) ≤ (cs.length : Int) := by exact_mod_cast hlen
            omega
        · omega
      simp only [complexityAux]
      omega

/-- List version of `wfTree_complexity_nonneg`. -/
theorem wfList_complexity_nonneg :
    ∀ ts : List PyNode, wfList ts = true → 0 ≤ complexityList ts
  | [] => by intro _; simp [complexityList]
  | c :: cs => by
      intro h
      simp only [wfList, Bool.and_eq_true] at h
      have h1 := wfTree_complexity_nonneg c h.1
      have h2 := wfList_complexity_nonneg cs h.2
      simp only [complexityList]
      omega

end

/-! ### Claim theorems -/

/-- C1 (amended): for every source whose execution faults, if any, derive
from `Exception`, `comprehensive_inspection` returns a report whose
`static_analysis` section is the static-phase result (and whose
`runtime_analysis` section is therefore also present), and it does not
raise.  (The unamended claim — *never* raises for *every* source — fails
on a source raising a bare `BaseException` such as `SystemExit`; see the
counterexample.) -/
theorem inspection_total_for_exception_faults
    (parse : String → Except SyntaxErr PyNode) (beh : ExecBehavior)
    (code : String)
    (h : ∀ e, beh.outcome = ExecEnd.raised e → e.isExc = true) :
    (comprehensive_inspection parse beh code).toOption.map
      InspectionReport.static_analysis = some (static_analysis parse code) := by
  unfold comprehensive_inspection runtime_execution
  cases hb : beh.outcome with
  | normal => simp [Except.toOption]
  | raised e =>
      have he := h e hb
      simp [he, Except.toOption]

/-- Witness for `inspection_total_for_exception_faults` at a concrete
source whose execution raises a `TypeError`. -/
theorem inspection_total_for_exception_faults_witness :
    (comprehensive_inspection parseTriv behRaisedTE "x").toOption.map
      InspectionReport.static_analysis = some (static_analysis parseTriv "x") :=
  inspection_total_for_exception_faults parseTriv behRaisedTE "x"
    (fun e he => by
      simp only [behRaisedTE] at he
      injection he with h
      subst h
      rfl)

/-- C1 (counterexample): for the source `raise SystemExit` — whose
exception derives from `BaseException` but not `Exception` — the fault
escapes both `except Exception` handlers and `comprehensive_inspection`
propagates it to the caller instead of returning a report. -/
theorem inspection_raises_on_system_exit :
    comprehensive_inspection parseTriv behSysExit "raise SystemExit"
      = Except.error ⟨"SystemExit", "", false⟩ := by
  rfl

/-- C2 (code bug, evaluated at the failing input): for Scenario A
(`x = 1 + '5'`) the runtime section has `success = false` and a
non-empty suggestion list, but the attached classification has category
`"Unknown"` (severity `"low"`, classified type `"str"`), not
`"Type Mismatch"`: the orchestrator rebuilds the fault as
`type(error_info['type'])(error_info['message'])`, i.e. as a plain
string, so the lookup misses the taxonomy.  The second conjunct shows the
intended classification: `classify_error` applied to the actual
`TypeError` does yield category `"Type Mismatch"`. -/
theorem scenarioA_classified_unknown :
    ((comprehensive_inspection parseTriv scenarioABeh scenarioACode).toOption.map
      (fun r => (r.runtime_analysis.result.success,
        r.runtime_analysis.error_details.map
          (fun d => (d.1.category, d.1.severity, d.1.etype, d.2.length))))
      = some (false, some ("Unknown", "low", "str", 1)))
    ∧ (classify_error
        ⟨"TypeError", "unsupported operand types for +: int and str"⟩).category
      = "Type Mismatch" := by
  constructor <;> rfl

/-- C3 (code bug): `runtime_execution` never reads its `timeout`
argument — the result is literally the same for every timeout value, so
no execution is ever forcibly terminated and no `Timeout` fault is ever
produced. -/
theorem runtime_execution_ignores_timeout :
    ∀ (beh : ExecBehavior) (t₁ t₂ : Nat),
      runtime_execution beh t₁ = runtime_execution beh t₂ :=
  fun _ _ _ => rfl

/-- C4 (confirmed): for every fault whose type name is absent from the
`ERROR_TYPES` table, `classify_error` returns the total fallback —
category `"Unknown"`, severity `"low"`, advice
`"Unexpected error occurred."` — and still carries the fault's own type
name and message, so a classification is always produced. -/
theorem classify_error_unknown_fallback (err : PyObjRepr)
    (h : lookupErrorType err.typeName = none) :
    (classify_error err).category = "Unknown"
      ∧ (classify_error err).severity = "low"
      ∧ (classify_error err).general_advice = "Unexpected error occurred."
      ∧ (classify_error err).etype = err.typeName
      ∧ (classify_error err).message = err.strRepr := by
  simp [classify_error, h]

/-- Witness for `classify_error_unknown_fallback` at the fault kind
`OSError`, which the table does not list. -/
theorem classify_error_unknown_fallback_witness :
    (classify_error ⟨"OSError", "no such device"⟩).category = "Unknown"
      ∧ (classify_error ⟨"OSError", "no such device"⟩).severity = "low"
      ∧ (classify_error ⟨"OSError", "no such device"⟩).general_advice
          = "Unexpected error occurred."
      ∧ (classify_error ⟨"OSError", "no such device"⟩).etype = "OSError"
      ∧ (classify_error ⟨"OSError", "no such device"⟩).message
          = "no such device" :=
  classify_error_unknown_fallback ⟨"OSError", "no such device"⟩ (by rfl)

/-- C5 (confirmed): whenever parsing fails, `static_analysis` returns the
`syntax_valid = false` report carrying the fault's message, line and
offset; being a total function of the parse outcome, it never raises to
its caller. -/
theorem static_analysis_on_parse_failure
    (parse : String → Except SyntaxErr PyNode) (code : String)
    (e : SyntaxErr) (h : parse code = Except.error e) :
    static_analysis parse code
      = StaticReport.invalid e.message e.line e.offset := by
  simp [static_analysis, h]

/-- Witness for `static_analysis_on_parse_failure` on the syntactically
invalid source `def broken_function()` (missing colon). -/
theorem static_analysis_on_parse_failure_witness :
    static_analysis parseFail "def broken_function()"
      = StaticReport.invalid "expected colon" 1 21 :=
  static_analysis_on_parse_failure parseFail "def broken_function()"
    ⟨"expected colon", 1, 21⟩ rfl

/-- C6 (counterexample): a source that prints `hello`, writes `warning`
to stderr and then raises a `TypeError` produced both stream texts, yet
the outcome `runtime_execution` returns holds neither — `output` is
`None` on the fault path, and no field of the result dictionary ever
stores the stderr text. -/
theorem runtime_execution_drops_streams :
    behC6.stdout = "hello\n" ∧ behC6.stderr = "warning"
      ∧ runtime_execution behC6 5
          = Except.ok ⟨false, none, some 3, some ⟨"TypeError", "boom"⟩⟩ := by
  refine ⟨rfl, rfl, rfl⟩

/-- C6 (amended): both streams are redirected away from the host, but
only the stdout text reaches the outcome and only on the success path
(`output = captured stdout` when `success`, `output = None` on a fault);
the stderr capture is discarded.  The `runtime` (duration) field is
populated on every path on which the call returns. -/
theorem runtime_execution_output_paths (beh : ExecBehavior) (t : Nat)
    (r : ExecResult) (h : runtime_execution beh t = Except.ok r) :
    r.runtime = some beh.duration
      ∧ (r.success = true → r.output = some beh.stdout)
      ∧ (r.success = false → r.output = none) := by
  unfold runtime_execution at h
  split at h
  · injection h with h'
    subst h'
    simp
  · split at h
    · injection h with h'
      subst h'
      simp
    · exact Except.noConfusion h

/-- Witness for `runtime_execution_output_paths` at the concrete
behaviour `behC6`. -/
theorem runtime_execution_output_paths_witness :
    rC6.runtime = some behC6.duration
      ∧ (rC6.success = true → rC6.output = some behC6.stdout)
      ∧ (rC6.success = false → rC6.output = none) :=
  runtime_execution_output_paths behC6 5 rC6 rfl

/-- C7 (counterexample): the source's complexity differs from the spec's
wording on three constructs — a `match` with two arms is charged 1 by the
code (per statement) but 2 by the wording (per arm); an `async with`
block is charged by the code but named by no category of the wording;
and a `try` with one `except` clause is charged 2 by the code (statement
plus handler) but 1 by a per-clause reading. -/
theorem complexity_differs_from_spec_wording :
    calculate_complexity tMatch = 2 ∧ spec_complexity tMatch = 3
      ∧ calculate_complexity tAsyncWith = 2 ∧ spec_complexity tAsyncWith = 1
      ∧ calculate_complexity tTry = 3 ∧ spec_complexity tTry = 2 := by
  refine ⟨by decide, by decide, by decide, by decide, by decide, by decide⟩

/-- C7 (amended): for every tree, the complexity score equals 1 plus one
per `if`, `while`, `for`, `async for`, `try` statement, `except` clause,
`async with` block and `match` *statement* (not per arm), plus `n - 1`
for each boolean combination of `n` operands. -/
theorem calculate_complexity_decomposition (t : PyNode) :
    calculate_complexity t =
      1 + ((countK NodeKind.ifK t + countK NodeKind.whileK t
        + countK NodeKind.forK t + countK NodeKind.asyncForK t
        + countK NodeKind.tryK t + countK NodeKind.exceptHandlerK t
        + countK NodeKind.asyncWithK t + countK NodeKind.matchK t : Nat) : Int)
      + boolOpExtra t := by
  have h := complexityAux_eq_counts t
  unfold calculate_complexity
  push_cast at h ⊢
  linarith

/-- C8 (confirmed): a straight-line tree with no branch construct has
complexity exactly 1, and appending a conditional, loop, or exception
construct (well-formed, as `ast.parse` guarantees) to a module body never
decreases the complexity score. -/
theorem complexity_baseline_and_monotone :
    (∀ t : PyNode, noBranch t = true → calculate_complexity t = 1)
      ∧ (∀ (body : List PyNode) (extra : PyNode),
          wfTree extra = true → isBranchStmt extra = true →
          calculate_complexity (PyNode.node NodeKind.module body)
            ≤ calculate_complexity
                (PyNode.node NodeKind.module (body ++ [extra]))) := by
  constructor
  · intro t h
    unfold calculate_complexity
    rw [noBranch_complexityAux t h]
    omega
  · intro body extra hwf _
    have hx : 0 ≤ complexityAux extra := wfTree_complexity_nonneg extra hwf
    unfold calculate_complexity
    simp only [complexityAux, complexityList_append, complexityList]
    rw [if_neg (by decide : ¬(NodeKind.module = NodeKind.boolOpK)),
      if_neg (by decide : ¬(NodeKind.module = NodeKind.boolOpK))]
    omega

/-- Witness for `complexity_baseline_and_monotone`: a one-assignment
module has score 1, and appending an `if` statement to an empty module
body does not decrease the score. -/
theorem complexity_baseline_and_monotone_witness :
    calculate_complexity
        (PyNode.node NodeKind.module [PyNode.node NodeKind.otherK []]) = 1
      ∧ calculate_complexity (PyNode.node NodeKind.module [])
          ≤ calculate_complexity
              (PyNode.node NodeKind.module
                ([] ++ [PyNode.node NodeKind.ifK []])) :=
  ⟨complexity_baseline_and_monotone.1
      (PyNode.node NodeKind.module [PyNode.node NodeKind.otherK []])
      (by decide),
   complexity_baseline_and_monotone.2 [] (PyNode.node NodeKind.ifK [])
      (by decide) (by decide)⟩

/-- C9 (confirmed): `static_analysis` is a deterministic function of the
source text — identical texts yield identical StructuralReports — and the
`static_analysis` section of any report `comprehensive_inspection`
returns is exactly that static-phase result, so re-running a full
inspection on identical source yields an identical static section. -/
theorem static_analysis_deterministic
    (parse : String → Except SyntaxErr PyNode) (beh : ExecBehavior)
    (s₁ s₂ : String) (r : InspectionReport)
    (h₁ : s₁ = s₂)
    (h₂ : comprehensive_inspection parse beh s₁ = Except.ok r) :
    static_analysis parse s₁ = static_analysis parse s₂
      ∧ r.static_analysis = static_analysis parse s₁ := by
  subst h₁
  refine ⟨rfl, ?_⟩
  unfold comprehensive_inspection at h₂
  split at h₂
  · exact Except.noConfusion h₂
  · split at h₂
    · injection h₂ with h
      subst h
      rfl
    · split at h₂ <;> (injection h₂ with h; subst h; rfl)

/-- The report of `comprehensive_inspection parseTriv behNormal "x = 1"`,
spelled out. -/
def repC9 : InspectionReport :=
  ⟨static_analysis parseTriv "x = 1", ⟨⟨true, some "", some 1, none⟩, none⟩⟩

/-- Witness for `static_analysis_deterministic` at a concrete successful
inspection. -/
theorem static_analysis_deterministic_witness :
    static_analysis parseTriv "x = 1" = static_analysis parseTriv "x = 1"
      ∧ repC9.static_analysis = static_analysis parseTriv "x = 1" :=
  static_analysis_deterministic parseTriv behNormal "x = 1" "x = 1" repC9
    rfl (by rfl)

/-- C10 (confirmed): because `runtime_execution` executes with an empty
globals dictionary and a separate locals dictionary, a function body
cannot see names bound at the source's own top level: `f(arg)` where
`f`'s body calls the top-level `g` fails with `NameError` on `g` for
every argument, and a recursive `fact` fails with `NameError` on its own
name — while the same two programs run correctly (the recursive one to
`r = 120`) under ordinary module scoping where globals and locals are one
dictionary.  The final conjunct is the mechanism: sandbox execution of
*any* program leaves the globals dictionary empty. -/
theorem sandbox_top_level_names_invisible :
    (∀ arg : Int,
      (sandboxRun (progCall arg) 50).2 = some (nameError "g")
        ∧ (moduleRun (progCall arg) 50).2 = none)
      ∧ (sandboxRun progRec 200).2 = some (nameError "fact")
      ∧ (moduleRun progRec 200).2 = none
      ∧ lookupEnv (moduleRun progRec 200).1.l "r" = some (Val.int 120)
      ∧ (∀ (prog : List Stmt) (fuel : Nat),
          (execProg true fuel initSt prog).1.g = []) := by
  refine ⟨fun arg => ⟨rfl, rfl⟩, by decide, by decide, by decide,
    fun prog fuel => execProg_sandbox_globals prog fuel initSt⟩
